import Mathlib

/-
Shallow embedding of the two recipe modules
  nemo/collections/llm/recipes/gpt3_175b.py
  nemo/collections/llm/recipes/nemotron4_22b.py
of the NeMo repository. Each Python recipe function builds a nested tree of
fiddle `run.Config` / `run.Partial` nodes. The embedding represents each
configuration node as a Lean structure holding exactly the keyword fields the
source passes, and represents the Python-level distinction between a fiddle
`run.Config` node wrapping a class C and a direct instance of C (which is what
an `isinstance(v, C)` check observes) with the `PyVal` wrapper below.
Helper builders that live outside src/ (nemotron_trainer, default_log,
default_resume, tensorboard_logger, the optimizer factory and the precision
plugin factories) are modelled from the spec and marked as such.
-/

/-- Tag for the Python callable passed as the `fn` argument of a recipe.
`pretrain` is the default (the external entry point); `custom k` stands for
any other callable, so quantifying over `PyFn` covers every choice of `fn`. -/
inductive PyFn where
  | pretrain
  | custom (k : Nat)
deriving DecidableEq, Repr

/-- Torch dtypes appearing in the two recipe files. -/
inductive DType where
  | bfloat16
  | float16
deriving DecidableEq, Repr

/-- A Python runtime value carrying the keyword fields of an external class C:
either a fiddle `run.Config` node wrapping C (what `run.Config(C, ...)`
builds), or a direct instance of C. In the two recipe files every such value
is built with `run.Config`, hence is a `config` node. A Python
`isinstance(v, C)` check is true only for direct instances: `run.Config` is a
subclass of `fiddle.Config`, not of the wrapped class C. -/
inductive PyVal (C : Type) where
  | config (c : C)
  | inst (c : C)
deriving DecidableEq, Repr

/-- Result of the Python `isinstance(v, C)` check on a `PyVal C`. -/
def PyVal.isinstance {C : Type} : PyVal C → Bool
  | .config _ => false
  | .inst _ => true

/-- The keyword fields stored in the value (attribute access reads them on
both a fiddle Config node and a direct instance). -/
def PyVal.get {C : Type} : PyVal C → C
  | .config c => c
  | .inst c => c

/-- Attribute assignment on the value: rewrites the stored fields, preserving
whether the value is a Config node or a direct instance. -/
def PyVal.update {C : Type} (f : C → C) : PyVal C → PyVal C
  | .config c => .config (f c)
  | .inst c => .inst (f c)

/-- Fields of megatron.core.distributed.DistributedDataParallelConfig that the
two recipe files set (defaults stand for fields left unset). -/
structure DistributedDataParallelConfig where
  check_for_nan_in_grad : Bool := false
  grad_reduce_in_fp32 : Bool := false
  overlap_grad_reduce : Bool := false
  overlap_param_gather : Bool := false
  average_in_collective : Bool := false
deriving DecidableEq, Repr

/-- Modelled from the spec: the MegatronMixedPrecision plugin configuration
(nemo/lightning/pytorch/plugins/mixed_precision.py is not under src/). Spec
4.2 calls it the numeric-precision plugin selection; the 22B performance
variant assigns its `grad_reduce_in_fp32` attribute, so the class carries that
field, and the flip to False there implies the base factories set it to True.
`fp8` records whether the fp8 flavour of the plugin factory was used. -/
structure MegatronMixedPrecision where
  precision : String
  fp8 : Bool := false
  grad_reduce_in_fp32 : Bool := true
deriving DecidableEq, Repr

/-- The named tensor-parallel-communication overlap profiles imported by
gpt3_175b.py from tp_overlap_configs/userbuffers.py (opaque constants here). -/
inductive TpOverlapCfg where
  | userbuffers_bf16_h100_h12288_tp4_mbs1_seqlen2048
  | userbuffers_fp8_h100_h12288_tp4_mbs1_seqlen2048
deriving DecidableEq, Repr

/-- Keyword fields of MegatronCommOverlapCallback. Modelled from the spec for
the fields a call site leaves unset: the class itself is not under src/, and
its defaults (everything off / empty) are the natural reading of spec 4.4,
which lists these knobs as optional overlap optimizations. -/
structure MegatronCommOverlapParams where
  tp_comm_overlap : Bool := false
  tp_comm_overlap_cfg : Option TpOverlapCfg := none
  defer_embedding_wgrad_compute : Bool := false
  wgrad_deferral_limit : Nat := 0
  overlap_param_gather_with_optimizer_step : Bool := false
  align_param_gather : Bool := false
deriving DecidableEq, Repr

/-- Callback configuration nodes appearing in the two recipe files. -/
inductive CallbackConfig where
  | timingCallback
  | megatronCommOverlapCallback (params : MegatronCommOverlapParams)
deriving DecidableEq, Repr

/-- Fields of the nl.MegatronStrategy configuration node as set by the
trainer builders. -/
structure MegatronStrategy where
  tensor_model_parallel_size : Nat
  pipeline_model_parallel_size : Nat
  pipeline_dtype : Option DType
  virtual_pipeline_model_parallel_size : Option Nat
  context_parallel_size : Nat
  sequence_parallel : Bool
  gradient_as_bucket_view : Bool
  ckpt_async_save : Bool
  ckpt_parallel_load : Bool
  ddp : PyVal DistributedDataParallelConfig
deriving DecidableEq, Repr

/-- Fields of the nl.Trainer configuration node as set by the trainer
builders. `callbacks` is Optional in the source (default None). -/
structure Trainer where
  accelerator : String
  accumulate_grad_batches : Nat
  callbacks : Option (List CallbackConfig)
  devices : Nat
  limit_test_batches : Nat
  limit_val_batches : Nat
  log_every_n_steps : Nat
  max_steps : Nat
  num_nodes : Nat
  plugins : PyVal MegatronMixedPrecision
  strategy : MegatronStrategy
  use_distributed_sampler : Bool
  val_check_interval : Nat
deriving DecidableEq, Repr

/-- Fields of the MockDataModule configuration node as set by the recipes. -/
structure MockDataModule where
  seq_length : Nat
  global_batch_size : Nat
  micro_batch_size : Nat
deriving DecidableEq, Repr

/-- Modelled from the spec: the tensorboard metrics-logger sub-configuration
built by `tensorboard_logger(name=...)` (recipes/log/default.py is not under
src/); spec 4.3 says the logging node carries a metrics-logger
sub-configuration keyed by the run name. -/
structure TensorboardLoggerConfig where
  name : String
deriving DecidableEq, Repr

/-- Modelled from the spec: the logging configuration node built by
`default_log(dir=..., name=..., tensorboard_logger=...)` (not under src/);
spec 4.3: directory, run name, metrics-logger sub-configuration. -/
structure LogConfig where
  dir : Option String
  name : String
  tb : TensorboardLoggerConfig
deriving DecidableEq, Repr

/-- Modelled from the spec: the optimizer configuration node produced by
`distributed_fused_adam_with_cosine_annealing` (recipes/optim/adam.py is not
under src/); spec 4.3 lists warmup/constant steps, min/max learning rate,
gradient-clip value and numeric precision as its fields. Learning rates and
the clip value are stored as exact rationals (they are only stored, never
computed with, in this code). -/
structure OptimizerConfig where
  precision : String
  warmup_steps : Nat
  constant_steps : Nat
  min_lr : ℚ
  max_lr : ℚ
  clip_grad : ℚ
deriving DecidableEq, Repr

/-- Modelled from the spec: the resume-policy configuration node built by
`default_resume()` (not under src/); spec 4.3 calls it the resume-policy
node. Field values are the documented auto-resume behaviour. -/
structure AutoResume where
  resume_if_exists : Bool
  resume_ignore_no_checkpoint : Bool
deriving DecidableEq, Repr

/-- The model configuration node: gpt3_175b.py wraps GPTModel around a
GPTConfig175B node; nemotron4_22b.py delegates to nemotron_model(version). -/
inductive ModelConfig where
  | gptModel175B
  | nemotronModel (version : String)
deriving DecidableEq, Repr

/-- The run.Partial node returned by a pretrain recipe: the bound entry-point
callable plus the six keyword branches. Each branch is an Option because a
Python keyword value could be None; the builders always pass constructed
nodes, i.e. produce `some`. -/
structure PretrainPartialCfg where
  fn : PyFn
  model : Option ModelConfig
  trainer : Option Trainer
  data : Option MockDataModule
  log : Option LogConfig
  optim : Option OptimizerConfig
  resume : Option AutoResume
deriving DecidableEq, Repr

/-- Modelled from the spec: `tensorboard_logger` from recipes/log/default.py
(not under src/). -/
def tensorboard_logger (name : String) : TensorboardLoggerConfig :=
  { name := name }

/-- Modelled from the spec: `default_log` from recipes/log/default.py (not
under src/). -/
def default_log (dir : Option String) (name : String)
    (tb : TensorboardLoggerConfig) : LogConfig :=
  { dir := dir, name := name, tb := tb }

/-- Modelled from the spec: `default_resume` from recipes/log/default.py (not
under src/). -/
def default_resume : AutoResume :=
  { resume_if_exists := true, resume_ignore_no_checkpoint := true }

/-- Keyword arguments of the modelled optimizer factory. Defaults for the
arguments gpt3_175b.py leaves unset are placeholders (the source of the
factory is not under src/); no claim depends on their concrete values. -/
structure AdamCosineArgs where
  precision : String := "bf16-mixed"
  warmup_steps : Nat := 2000
  constant_steps : Nat := 0
  min_lr : ℚ := 0
  max_lr : ℚ := 1/10000
  clip_grad : ℚ := 1
deriving DecidableEq, Repr

/-- Modelled from the spec: `distributed_fused_adam_with_cosine_annealing`
from recipes/optim/adam.py (not under src/); spec 4.3: it builds the
optimizer node from the learning-rate schedule knobs, untransformed. -/
def distributed_fused_adam_with_cosine_annealing (a : AdamCosineArgs) :
    OptimizerConfig :=
  { precision := a.precision, warmup_steps := a.warmup_steps
    constant_steps := a.constant_steps, min_lr := a.min_lr
    max_lr := a.max_lr, clip_grad := a.clip_grad }

/-- Modelled from the spec: `bf16_with_fp8_mixed` from
recipes/precision/mixed_precision.py (not under src/). It is a run.cli
factory returning a `run.Config` node wrapping MegatronMixedPrecision, hence
a `config` node, never a direct instance. -/
def bf16_with_fp8_mixed : PyVal MegatronMixedPrecision :=
  .config { precision := "bf16-mixed", fp8 := true, grad_reduce_in_fp32 := true }

/-- Modelled from the spec: `nemotron_model(version)` from
recipes/nemotron.py (not under src/): a run.Config node for the named
nemotron model version. -/
def nemotron_model (version : String) : ModelConfig :=
  .nemotronModel version

namespace gpt3_175b

/-- Embeds gpt3_175b.model(): run.Config(GPTModel, config=run.Config(GPTConfig175B)). -/
def model : ModelConfig := .gptModel175B

/-- Keyword arguments of gpt3_175b.trainer with the source default values. -/
structure TrainerArgs where
  tensor_parallelism : Nat := 4
  pipeline_parallelism : Nat := 8
  pipeline_parallelism_type : Option DType := some .bfloat16
  virtual_pipeline_parallelism : Option Nat := some 6
  context_parallelism : Nat := 1
  sequence_parallelism : Bool := true
  num_nodes : Nat := 64
  num_gpus_per_node : Nat := 8
  max_steps : Nat := 1168251
  callbacks : Option (List CallbackConfig) := none
deriving DecidableEq, Repr

/-- Embeds gpt3_175b.trainer: builds the MegatronStrategy node (with the ddp
DistributedDataParallelConfig run.Config node) and the outer nl.Trainer node. -/
def trainer (a : TrainerArgs) : Trainer :=
  let strategy : MegatronStrategy :=
    { tensor_model_parallel_size := a.tensor_parallelism
      pipeline_model_parallel_size := a.pipeline_parallelism
      pipeline_dtype := a.pipeline_parallelism_type
      virtual_pipeline_model_parallel_size := a.virtual_pipeline_parallelism
      context_parallel_size := a.context_parallelism
      sequence_parallel := a.sequence_parallelism
      gradient_as_bucket_view := true
      ckpt_async_save := true
      ckpt_parallel_load := true
      ddp := .config
        { check_for_nan_in_grad := true
          grad_reduce_in_fp32 := true
          overlap_grad_reduce := true
          overlap_param_gather := true
          average_in_collective := true } }
  { accelerator := "gpu"
    accumulate_grad_batches := 1
    callbacks := a.callbacks
    devices := a.num_gpus_per_node
    limit_test_batches := 50
    limit_val_batches := 32
    log_every_n_steps := 10
    max_steps := a.max_steps
    num_nodes := a.num_nodes
    plugins := bf16_with_fp8_mixed
    strategy := strategy
    use_distributed_sampler := false
    val_check_interval := 2000 }

/-- Keyword arguments of gpt3_175b.pretrain_recipe (and of
gpt3_175b.pretrain_recipe_performance, whose signature and defaults are
identical) with the source default values. -/
structure PretrainArgs where
  dir : Option String := none
  name : String := "default"
  num_nodes : Nat := 1
  num_gpus_per_node : Nat := 8
  fn : PyFn := .pretrain
deriving DecidableEq, Repr

/-- Embeds gpt3_175b.pretrain_recipe: run.Partial(fn, model, trainer, data,
log, optim, resume) with the exact keyword values of the source. -/
def pretrain_recipe (a : PretrainArgs) : PretrainPartialCfg :=
  { fn := a.fn
    model := some model
    trainer := some (trainer
      { num_nodes := a.num_nodes
        num_gpus_per_node := a.num_gpus_per_node
        callbacks := some [.timingCallback] })
    data := some { seq_length := 2048, global_batch_size := 2048, micro_batch_size := 2 }
    log := some (default_log a.dir a.name (tensorboard_logger a.name))
    optim := some (distributed_fused_adam_with_cosine_annealing { max_lr := 9/100000 })
    resume := some default_resume }

/-- Embeds gpt3_175b.pretrain_recipe_performance: builds the base recipe,
then appends one MegatronCommOverlapCallback run.Config node to
recipe.trainer.callbacks. The attribute chain raises (returns none) if
trainer or callbacks were None; the base recipe always fills both. -/
def pretrain_recipe_performance (a : PretrainArgs) : Option PretrainPartialCfg := do
  let recipe := pretrain_recipe a
  let t ← recipe.trainer
  let cbs ← t.callbacks
  some { recipe with trainer := some { t with callbacks := some (cbs ++
    [.megatronCommOverlapCallback
      { tp_comm_overlap := true
        tp_comm_overlap_cfg := some .userbuffers_fp8_h100_h12288_tp4_mbs1_seqlen2048
        defer_embedding_wgrad_compute := true
        wgrad_deferral_limit := 50
        overlap_param_gather_with_optimizer_step := true
        align_param_gather := true }]) } }

end gpt3_175b

/-- Keyword arguments of nemotron_trainer as called by
nemotron4_22b.pretrain_recipe. Defaults are those of the pretrain recipe
(the trainer factory itself is not under src/ and every argument here is
passed explicitly at the one call site in src/). -/
structure NemotronTrainerArgs where
  tensor_parallelism : Nat := 2
  pipeline_parallelism : Nat := 4
  pipeline_parallelism_type : Option DType := none
  virtual_pipeline_parallelism : Option Nat := some 10
  context_parallelism : Nat := 1
  sequence_parallelism : Bool := false
  num_nodes : Nat := 1
  num_gpus_per_node : Nat := 8
  max_steps : Nat := 300000
  precision : String := "bf16-mixed"
  accumulate_grad_batches : Nat := 1
  limit_test_batches : Nat := 32
  limit_val_batches : Nat := 32
  log_every_n_steps : Nat := 10
  val_check_interval : Nat := 2000
  callbacks : Option (List CallbackConfig) := none
deriving DecidableEq, Repr

/-- Modelled from the spec: `nemotron_trainer` from recipes/nemotron.py (not
under src/). Spec 4.2: it builds a run.Config MegatronStrategy node from the
parallelism degrees plus the data-parallel communication settings
(gradient-bucket view, asynchronous and parallel checkpoint I/O,
NaN-checking, gradient-reduction precision and overlap flags), a ddp
run.Config node wrapping DistributedDataParallelConfig, and an outer
run.Config nl.Trainer node with device/node counts, cadence knobs and a
precision plugin selected from the precision string. Every nested node is a
run.Config node (a `config` value), never a direct instance. The performance
variant in src/ flips grad_reduce_in_fp32 to False, which implies the base
value here is True. -/
def nemotron_trainer (a : NemotronTrainerArgs) : Trainer :=
  let strategy : MegatronStrategy :=
    { tensor_model_parallel_size := a.tensor_parallelism
      pipeline_model_parallel_size := a.pipeline_parallelism
      pipeline_dtype := a.pipeline_parallelism_type
      virtual_pipeline_model_parallel_size := a.virtual_pipeline_parallelism
      context_parallel_size := a.context_parallelism
      sequence_parallel := a.sequence_parallelism
      gradient_as_bucket_view := true
      ckpt_async_save := true
      ckpt_parallel_load := true
      ddp := .config
        { check_for_nan_in_grad := true
          grad_reduce_in_fp32 := true
          overlap_grad_reduce := true
          overlap_param_gather := true
          average_in_collective := true } }
  { accelerator := "gpu"
    accumulate_grad_batches := a.accumulate_grad_batches
    callbacks := a.callbacks
    devices := a.num_gpus_per_node
    limit_test_batches := a.limit_test_batches
    limit_val_batches := a.limit_val_batches
    log_every_n_steps := a.log_every_n_steps
    max_steps := a.max_steps
    num_nodes := a.num_nodes
    plugins := .config { precision := a.precision, fp8 := false, grad_reduce_in_fp32 := true }
    strategy := strategy
    use_distributed_sampler := false
    val_check_interval := a.val_check_interval }

namespace nemotron4_22b

/-- Embeds nemotron4_22b.model(): nemotron_model(version=NAME). -/
def model : ModelConfig := nemotron_model ("nemotron4_22b")

/-- Keyword arguments of nemotron4_22b.pretrain_recipe with the source
default values. -/
structure PretrainArgs where
  dir : Option String := none
  name : String := "default"
  tensor_parallelism : Nat := 2
  pipeline_parallelism : Nat := 4
  pipeline_parallelism_type : Option DType := none
  virtual_pipeline_parallelism : Option Nat := some 10
  context_parallelism : Nat := 1
  sequence_parallelism : Bool := false
  num_nodes : Nat := 1
  num_gpus_per_node : Nat := 8
  max_steps : Nat := 300000
  precision : String := "bf16-mixed"
  accumulate_grad_batches : Nat := 1
  gradient_clip_val : ℚ := 1
  limit_test_batches : Nat := 32
  limit_val_batches : Nat := 32
  log_every_n_steps : Nat := 10
  val_check_interval : Nat := 2000
  global_batch_size : Nat := 32
  micro_batch_size : Nat := 1
  seq_length : Nat := 4096
  warmup_steps : Nat := 500
  constant_steps : Nat := 0
  min_lr : ℚ := 1/100000
  max_lr : ℚ := 1/10000
  fn : PyFn := .pretrain
deriving DecidableEq, Repr

/-- Embeds nemotron4_22b.pretrain_recipe: run.Partial(fn, model, trainer,
data, log, optim, resume) with the exact keyword values of the source. -/
def pretrain_recipe (a : PretrainArgs) : PretrainPartialCfg :=
  { fn := a.fn
    model := some model
    trainer := some (nemotron_trainer
      { tensor_parallelism := a.tensor_parallelism
        pipeline_parallelism := a.pipeline_parallelism
        pipeline_parallelism_type := a.pipeline_parallelism_type
        virtual_pipeline_parallelism := a.virtual_pipeline_parallelism
        context_parallelism := a.context_parallelism
        sequence_parallelism := a.sequence_parallelism
        num_nodes := a.num_nodes
        num_gpus_per_node := a.num_gpus_per_node
        max_steps := a.max_steps
        precision := a.precision
        accumulate_grad_batches := a.accumulate_grad_batches
        limit_test_batches := a.limit_test_batches
        limit_val_batches := a.limit_val_batches
        log_every_n_steps := a.log_every_n_steps
        val_check_interval := a.val_check_interval
        callbacks := some [.timingCallback] })
    data := some
      { seq_length := a.seq_length
        global_batch_size := a.global_batch_size
        micro_batch_size := a.micro_batch_size }
    log := some (default_log a.dir a.name (tensorboard_logger a.name))
    optim := some (distributed_fused_adam_with_cosine_annealing
      { precision := a.precision
        warmup_steps := a.warmup_steps
        constant_steps := a.constant_steps
        min_lr := a.min_lr
        max_lr := a.max_lr
        clip_grad := a.gradient_clip_val })
    resume := some default_resume }

/-- Keyword arguments of nemotron4_22b.pretrain_recipe_performance with the
source default values. -/
structure PerfArgs where
  dir : Option String := none
  name : String := "default"
  num_nodes : Nat := 8
  num_gpus_per_node : Nat := 8
  fn : PyFn := .pretrain
deriving DecidableEq, Repr

/-- The argument tuple the performance variant hands to the base recipe:
dir, name, num_nodes, num_gpus_per_node and fn as given, everything else at
the base defaults. -/
def PerfArgs.toBase (a : PerfArgs) : PretrainArgs :=
  { dir := a.dir, name := a.name, num_nodes := a.num_nodes
    num_gpus_per_node := a.num_gpus_per_node, fn := a.fn }

/-- Embeds nemotron4_22b.pretrain_recipe_performance: builds the base recipe;
if isinstance(recipe.trainer.plugins, MegatronMixedPrecision) sets
plugins.grad_reduce_in_fp32 = False; if
isinstance(recipe.trainer.strategy.ddp, DistributedDataParallelConfig) sets
ddp.grad_reduce_in_fp32 = False; then appends one MegatronCommOverlapCallback
run.Config node to recipe.trainer.callbacks. The attribute chain raises
(returns none) if trainer or callbacks were None; the base recipe always
fills both. -/
def pretrain_recipe_performance (a : PerfArgs) : Option PretrainPartialCfg := do
  let recipe := pretrain_recipe a.toBase
  let t ← recipe.trainer
  let t := if t.plugins.isinstance then
      { t with plugins := t.plugins.update (fun p => { p with grad_reduce_in_fp32 := false }) }
    else t
  let t := if t.strategy.ddp.isinstance then
      { t with strategy := { t.strategy with
          ddp := t.strategy.ddp.update (fun d => { d with grad_reduce_in_fp32 := false }) } }
    else t
  let cbs ← t.callbacks
  some { recipe with trainer := some { t with callbacks := some (cbs ++
    [.megatronCommOverlapCallback
      { tp_comm_overlap := true
        defer_embedding_wgrad_compute := true
        wgrad_deferral_limit := 22 }]) } }

end nemotron4_22b

/-- The trainer node of a possibly-failed recipe result. -/
def trainerOf (p : Option PretrainPartialCfg) : Option Trainer :=
  p.bind PretrainPartialCfg.trainer

/-- The trainer callback list of a possibly-failed recipe result. -/
def callbacksOf (p : Option PretrainPartialCfg) : Option (List CallbackConfig) :=
  (trainerOf p).bind Trainer.callbacks

/-- The grad_reduce_in_fp32 field of the trainer strategy ddp node. -/
def ddpGradReduceOf (p : Option PretrainPartialCfg) : Option Bool :=
  (trainerOf p).map (fun t => t.strategy.ddp.get.grad_reduce_in_fp32)

/-- The grad_reduce_in_fp32 field of the trainer precision plugin node. -/
def pluginsGradReduceOf (p : Option PretrainPartialCfg) : Option Bool :=
  (trainerOf p).map (fun t => t.plugins.get.grad_reduce_in_fp32)

/-- C1: the claim fails on the code. At the default arguments (the failing
input) the 22B performance recipe does append the MegatronCommOverlapCallback
node with wgrad_deferral_limit = 22, but trainer.strategy.ddp keeps
grad_reduce_in_fp32 = true (as does the precision plugin): both isinstance
guards compare a run.Config node against the target class and never pass, so
the two False-assignments are dead code and the claimed
grad_reduce_in_fp32 = False is not produced. -/
theorem c1_nemotron22b_perf_grad_reduce_stays_true :
    ddpGradReduceOf (nemotron4_22b.pretrain_recipe_performance {}) = some true ∧
    pluginsGradReduceOf (nemotron4_22b.pretrain_recipe_performance {}) = some true ∧
    callbacksOf (nemotron4_22b.pretrain_recipe_performance {}) =
      some [.timingCallback, .megatronCommOverlapCallback
        { tp_comm_overlap := true
          defer_embedding_wgrad_compute := true
          wgrad_deferral_limit := 22 }] :=
  ⟨rfl, rfl, rfl⟩

/-- C2: for every argument tuple of the 22B performance variant, both
isinstance guards evaluate to false on the tree the base recipe builds (the
guarded values are run.Config nodes, not instances of the target classes),
the variant signals no error (it returns a tree), both grad_reduce_in_fp32
fields are left exactly at the values the base recipe produced, and the
returned configuration tree is complete (all six branches present). -/
theorem c2_nemotron22b_guard_degrades_to_silent_noop (a : nemotron4_22b.PerfArgs) :
    ∃ bt, (nemotron4_22b.pretrain_recipe a.toBase).trainer = some bt ∧
      bt.plugins.isinstance = false ∧
      bt.strategy.ddp.isinstance = false ∧
      pluginsGradReduceOf (nemotron4_22b.pretrain_recipe_performance a) =
        some bt.plugins.get.grad_reduce_in_fp32 ∧
      ddpGradReduceOf (nemotron4_22b.pretrain_recipe_performance a) =
        some bt.strategy.ddp.get.grad_reduce_in_fp32 ∧
      ∃ p, nemotron4_22b.pretrain_recipe_performance a = some p ∧
        p.model.isSome = true ∧ p.trainer.isSome = true ∧ p.data.isSome = true ∧
        p.log.isSome = true ∧ p.optim.isSome = true ∧ p.resume.isSome = true :=
  ⟨_, rfl, rfl, rfl, rfl, rfl, _, rfl, rfl, rfl, rfl, rfl, rfl, rfl⟩

/-- C3: for every argument tuple, each performance variant returns a tree
whose trainer callback list is exactly the base recipe callback list (base
called with the same arguments) with one extra entry appended at the end,
namely the MegatronCommOverlapCallback node with the field values written in
the variant (gpt3_175b: tp_comm_overlap, the fp8 h100 userbuffers profile,
defer_embedding_wgrad_compute, wgrad_deferral_limit = 50, both param-gather
flags; nemotron4_22b: tp_comm_overlap, defer_embedding_wgrad_compute,
wgrad_deferral_limit = 22). -/
theorem c3_performance_appends_exactly_the_overlap_callback
    (g : gpt3_175b.PretrainArgs) (n : nemotron4_22b.PerfArgs) :
    callbacksOf (gpt3_175b.pretrain_recipe_performance g) =
      (callbacksOf (some (gpt3_175b.pretrain_recipe g))).map (fun cbs => cbs ++
        [.megatronCommOverlapCallback
          { tp_comm_overlap := true
            tp_comm_overlap_cfg := some .userbuffers_fp8_h100_h12288_tp4_mbs1_seqlen2048
            defer_embedding_wgrad_compute := true
            wgrad_deferral_limit := 50
            overlap_param_gather_with_optimizer_step := true
            align_param_gather := true }]) ∧
    callbacksOf (nemotron4_22b.pretrain_recipe_performance n) =
      (callbacksOf (some (nemotron4_22b.pretrain_recipe n.toBase))).map (fun cbs => cbs ++
        [.megatronCommOverlapCallback
          { tp_comm_overlap := true
            defer_embedding_wgrad_compute := true
            wgrad_deferral_limit := 22 }]) :=
  ⟨rfl, rfl⟩

/-- C4: gpt3_175b.pretrain_recipe with num_nodes = 64 and num_gpus_per_node
= 8 yields a trainer node with num_nodes = 64 and devices = 8 whose strategy
keeps the trainer builder defaults tensor_model_parallel_size = 4 and
pipeline_model_parallel_size = 8. -/
theorem c4_gpt3_defaults_flow_through :
    ∃ t, (gpt3_175b.pretrain_recipe { num_nodes := 64, num_gpus_per_node := 8 }).trainer
        = some t ∧
      t.num_nodes = 64 ∧ t.devices = 8 ∧
      t.strategy.tensor_model_parallel_size = 4 ∧
      t.strategy.pipeline_model_parallel_size = 8 :=
  ⟨_, rfl, rfl, rfl, rfl, rfl⟩

/-- C5: for every argument tuple, the data-module node of
nemotron4_22b.pretrain_recipe carries exactly the seq_length,
global_batch_size and micro_batch_size arguments, untransformed.
gpt3_175b.pretrain_recipe exposes no batch-size or sequence-length
arguments; its data node is the fixed literal written at the call site
(seq_length 2048, global_batch_size 2048, micro_batch_size 2), so the
pass-through property holds vacuously there. -/
theorem c5_data_module_fields_equal_arguments
    (n : nemotron4_22b.PretrainArgs) (g : gpt3_175b.PretrainArgs) :
    (nemotron4_22b.pretrain_recipe n).data = some
      { seq_length := n.seq_length
        global_batch_size := n.global_batch_size
        micro_batch_size := n.micro_batch_size } ∧
    (gpt3_175b.pretrain_recipe g).data = some
      { seq_length := 2048, global_batch_size := 2048, micro_batch_size := 2 } :=
  ⟨rfl, rfl⟩

/-- C6: both base pretrain recipes, called with every argument at its
default, return a tree whose model, trainer, data, log, optim and resume
branches are all present and non-null. -/
theorem c6_default_base_recipes_have_all_six_branches :
    ((gpt3_175b.pretrain_recipe {}).model.isSome = true ∧
     (gpt3_175b.pretrain_recipe {}).trainer.isSome = true ∧
     (gpt3_175b.pretrain_recipe {}).data.isSome = true ∧
     (gpt3_175b.pretrain_recipe {}).log.isSome = true ∧
     (gpt3_175b.pretrain_recipe {}).optim.isSome = true ∧
     (gpt3_175b.pretrain_recipe {}).resume.isSome = true) ∧
    ((nemotron4_22b.pretrain_recipe {}).model.isSome = true ∧
     (nemotron4_22b.pretrain_recipe {}).trainer.isSome = true ∧
     (nemotron4_22b.pretrain_recipe {}).data.isSome = true ∧
     (nemotron4_22b.pretrain_recipe {}).log.isSome = true ∧
     (nemotron4_22b.pretrain_recipe {}).optim.isSome = true ∧
     (nemotron4_22b.pretrain_recipe {}).resume.isSome = true) :=
  ⟨⟨rfl, rfl, rfl, rfl, rfl, rfl⟩, ⟨rfl, rfl, rfl, rfl, rfl, rfl⟩⟩

/-- C8: for every argument tuple, each performance variant returns exactly
the tree of the base recipe called with the same arguments, with the one
change of the appended callback-list entry (the grad_reduce_in_fp32
overrides of the 22B variant, which the claim also excepts, turn out to be
no-ops, so even those fields equal the base values). The embedding is a pure
function of the arguments with no state shared between calls, so building a
variant cannot change what a later call of the base recipe returns. -/
theorem c8_performance_variants_change_only_the_callback_list
    (g : gpt3_175b.PretrainArgs) (n : nemotron4_22b.PerfArgs) :
    (∃ bt, (gpt3_175b.pretrain_recipe g).trainer = some bt ∧
      gpt3_175b.pretrain_recipe_performance g =
        some { gpt3_175b.pretrain_recipe g with
               trainer := some { bt with callbacks := some (bt.callbacks.getD [] ++
                 [.megatronCommOverlapCallback
                   { tp_comm_overlap := true
                     tp_comm_overlap_cfg := some .userbuffers_fp8_h100_h12288_tp4_mbs1_seqlen2048
                     defer_embedding_wgrad_compute := true
                     wgrad_deferral_limit := 50
                     overlap_param_gather_with_optimizer_step := true
                     align_param_gather := true }]) } }) ∧
    (∃ bt, (nemotron4_22b.pretrain_recipe n.toBase).trainer = some bt ∧
      nemotron4_22b.pretrain_recipe_performance n =
        some { nemotron4_22b.pretrain_recipe n.toBase with
               trainer := some { bt with callbacks := some (bt.callbacks.getD [] ++
                 [.megatronCommOverlapCallback
                   { tp_comm_overlap := true
                     defer_embedding_wgrad_compute := true
                     wgrad_deferral_limit := 22 }]) } }) :=
  ⟨⟨_, rfl, rfl⟩, ⟨_, rfl, rfl⟩⟩

/-- C9: the builders validate no parallelism arithmetic: even when the
product of the parallelism degrees does not divide the available device
count, the gpt3_175b trainer builder and the nemotron4_22b pretrain recipe
builder return a normal configuration tree recording the degrees and counts
exactly as given, with every branch present and no failing path. -/
theorem c9_no_parallelism_validation
    (ta : gpt3_175b.TrainerArgs) (na : nemotron4_22b.PretrainArgs)
    (hg : ¬ (ta.tensor_parallelism * ta.pipeline_parallelism * ta.context_parallelism ∣
        ta.num_nodes * ta.num_gpus_per_node))
    (hn : ¬ (na.tensor_parallelism * na.pipeline_parallelism * na.context_parallelism ∣
        na.num_nodes * na.num_gpus_per_node)) :
    ((gpt3_175b.trainer ta).strategy.tensor_model_parallel_size = ta.tensor_parallelism ∧
     (gpt3_175b.trainer ta).strategy.pipeline_model_parallel_size = ta.pipeline_parallelism ∧
     (gpt3_175b.trainer ta).strategy.context_parallel_size = ta.context_parallelism ∧
     (gpt3_175b.trainer ta).devices = ta.num_gpus_per_node ∧
     (gpt3_175b.trainer ta).num_nodes = ta.num_nodes) ∧
    (∃ t, (nemotron4_22b.pretrain_recipe na).trainer = some t ∧
      t.strategy.tensor_model_parallel_size = na.tensor_parallelism ∧
      t.strategy.pipeline_model_parallel_size = na.pipeline_parallelism ∧
      t.strategy.context_parallel_size = na.context_parallelism ∧
      t.devices = na.num_gpus_per_node ∧
      t.num_nodes = na.num_nodes ∧
      (nemotron4_22b.pretrain_recipe na).model.isSome = true ∧
      (nemotron4_22b.pretrain_recipe na).data.isSome = true ∧
      (nemotron4_22b.pretrain_recipe na).log.isSome = true ∧
      (nemotron4_22b.pretrain_recipe na).optim.isSome = true ∧
      (nemotron4_22b.pretrain_recipe na).resume.isSome = true) :=
  ⟨⟨rfl, rfl, rfl, rfl, rfl⟩,
   ⟨_, rfl, rfl, rfl, rfl, rfl, rfl, rfl, rfl, rfl, rfl, rfl⟩⟩

/-- C9 witness: tensor_parallelism = 3 with the remaining defaults gives
24 = 3 * 8 * 1 not dividing 512 = 64 * 8 for the gpt3 trainer and
12 = 3 * 4 * 1 not dividing 8 = 1 * 8 for the nemotron recipe, and both
builders still return their trees untouched. -/
theorem c9_no_parallelism_validation_witness :
    (¬ ((3 : Nat) * 8 * 1 ∣ 64 * 8)) ∧ (¬ ((3 : Nat) * 4 * 1 ∣ 1 * 8)) ∧
    (((gpt3_175b.trainer { tensor_parallelism := 3 }).strategy.tensor_model_parallel_size = 3 ∧
      (gpt3_175b.trainer { tensor_parallelism := 3 }).strategy.pipeline_model_parallel_size = 8 ∧
      (gpt3_175b.trainer { tensor_parallelism := 3 }).strategy.context_parallel_size = 1 ∧
      (gpt3_175b.trainer { tensor_parallelism := 3 }).devices = 8 ∧
      (gpt3_175b.trainer { tensor_parallelism := 3 }).num_nodes = 64) ∧
     (∃ t, (nemotron4_22b.pretrain_recipe { tensor_parallelism := 3 }).trainer = some t ∧
       t.strategy.tensor_model_parallel_size = 3 ∧
       t.strategy.pipeline_model_parallel_size = 4 ∧
       t.strategy.context_parallel_size = 1 ∧
       t.devices = 8 ∧
       t.num_nodes = 1 ∧
       (nemotron4_22b.pretrain_recipe { tensor_parallelism := 3 }).model.isSome = true ∧
       (nemotron4_22b.pretrain_recipe { tensor_parallelism := 3 }).data.isSome = true ∧
       (nemotron4_22b.pretrain_recipe { tensor_parallelism := 3 }).log.isSome = true ∧
       (nemotron4_22b.pretrain_recipe { tensor_parallelism := 3 }).optim.isSome = true ∧
       (nemotron4_22b.pretrain_recipe { tensor_parallelism := 3 }).resume.isSome = true)) :=
  ⟨by decide, by decide,
   c9_no_parallelism_validation { tensor_parallelism := 3 } { tensor_parallelism := 3 }
     (by decide) (by decide)⟩

/-- C10: for every argument tuple, the gpt3_175b performance variant leaves
the gradient-reduction precision alone: trainer.strategy.ddp keeps
grad_reduce_in_fp32 = true exactly as the base trainer builder set it, and
the precision plugin node is the unchanged bf16-with-fp8 node of the base
recipe. -/
theorem c10_gpt3_perf_no_grad_reduce_override (g : gpt3_175b.PretrainArgs) :
    ddpGradReduceOf (gpt3_175b.pretrain_recipe_performance g) = some true ∧
    (trainerOf (gpt3_175b.pretrain_recipe_performance g)).map Trainer.plugins =
      ((gpt3_175b.pretrain_recipe g).trainer).map Trainer.plugins ∧
    (trainerOf (gpt3_175b.pretrain_recipe_performance g)).map Trainer.plugins =
      some bf16_with_fp8_mixed :=
  ⟨rfl, rfl, rfl⟩
